import Mathlib

/-
Verification of the ensemble aggregation and weight-adaptation engine of the
yt_helpdesk email classification service.

Shallow embedding of `src/api/models/ensemble.py` (class `EmailClassifier`)
together with the interface behaviour of the three member classifiers
(`src/api/models/decision_tree.py`, `naive_bayes.py`, `log_regression.py`).

Modelling conventions:
- Python floats are modelled as exact rationals (ℚ).
- The three member classifiers share one interface: `train` raises a KeyError
  as soon as any record lacks one of the four required fields (the field
  extraction list comprehensions run before any fitting), and `classify`
  returns the fixed fallback `{"unknown", "medium", 0.0}` while untrained.
  The statistical fitting itself (sklearn) is opaque: a trained member is
  modelled as the corpus it was fitted on, and the prediction behaviour of a
  fitted model is an uninterpreted parameter (a `Predictors` record), one
  function per member model, mapping the fitted corpus and the query text to
  a `ClassificationResult`.
- Python dict / set iteration: `classify` builds its per-label score
  dictionaries from Python sets of proposed labels; a Python set's iteration
  order over strings is hash-dependent, so `EmailClassifier.classify` takes
  the iteration order as an explicit argument, constrained to be a
  duplicate-free enumeration of the proposed labels (`IsSetOrder`).
- Python's `max(items, key=...)` scans left to right and replaces the current
  best only on a strictly greater key, so the first item attaining the
  maximum wins ties (`pyMaxItems`).
- `round(x, 3)` is modelled as round-half-to-even at 3 decimal places on ℚ.
-/

namespace YtHelpdesk

/-- A member classifier's output: `{"category": ..., "priority": ..., "confidence": ...}`. -/
structure ClassificationResult where
  category : String
  priority : String
  confidence : ℚ
  deriving DecidableEq

/-- A training/evaluation record. Python dicts may lack keys, hence `Option`:
`none` models an absent key (`email['subject']` raises, `email.get('subject','')`
yields `""`). -/
structure Email where
  subject : Option String
  body : Option String
  category : Option String
  priority : Option String
  deriving DecidableEq

/-- All four required fields are present on the record. -/
def hasAllFields (e : Email) : Bool :=
  e.subject.isSome && e.body.isSome && e.category.isSome && e.priority.isSome

/-- The fixed fallback returned by every untrained member classifier
(`decision_tree.py` line 39 and identically in the other two members). -/
def fallbackResult : ClassificationResult :=
  { category := "unknown", priority := "medium", confidence := 0 }

/-- State of one member classifier: `none` while `is_trained` is false,
`some corpus` once fitted on `corpus` (refitting replaces the old state). -/
structure MemberModel where
  fitted : Option (List Email)
  deriving DecidableEq

/-- The opaque prediction behaviour of the three fitted sklearn pipelines:
given the corpus a member was fitted on and the query subject/body, the
result the member reports. One uninterpreted function per member model. -/
structure Predictors where
  dtPredict : List Email → String → String → ClassificationResult
  nbPredict : List Email → String → String → ClassificationResult
  lrPredict : List Email → String → String → ClassificationResult

/-- Member `classify` (same shape in all three member files): fallback while
untrained, otherwise the fitted pipeline's prediction. -/
def MemberModel.classify (predict : List Email → String → String → ClassificationResult)
    (m : MemberModel) (subject body : String) : ClassificationResult :=
  match m.fitted with
  | none => fallbackResult
  | some corpus => predict corpus subject body

/-- Member `train` (same shape in all three member files): the four list
comprehensions `[email['subject'] for email in emails]` … raise a KeyError
before any fitting if any record lacks any of the four fields; otherwise the
member is refitted on the corpus and `is_trained` is set. -/
def MemberModel.train (_m : MemberModel) (emails : List Email) : Except String MemberModel :=
  if emails.all hasAllFields then .ok { fitted := some emails }
  else .error "KeyError: missing required field in training record"

/-- The ensemble's weight mapping `self.weights`; it always holds exactly the
three fixed model keys. -/
structure Weights where
  decision_tree : ℚ
  naive_bayes : ℚ
  logistic_regression : ℚ
  deriving DecidableEq

/-- Transcribes `sum(self.weights.values())`. -/
def Weights.sum (w : Weights) : ℚ :=
  w.decision_tree + w.naive_bayes + w.logistic_regression

/-- The initial weight distribution set in `EmailClassifier.__init__`. -/
def initialWeights : Weights :=
  { decision_tree := 4/10, naive_bayes := 3/10, logistic_regression := 3/10 }

/-- The mutable state of the `EmailClassifier` aggregator: the three member
classifiers, the weight mapping and the stored training corpus
(`self.training_data`, absent before the first `train` call). -/
structure EmailClassifier where
  decision_tree : MemberModel
  naive_bayes : MemberModel
  log_regression : MemberModel
  weights : Weights
  training_data : Option (List Email)
  deriving DecidableEq

/-- The state built by `EmailClassifier.__init__` before `_load_initial_data`
runs (that loader is a plain `train` call, covered by the `Reachable` step). -/
def initialState : EmailClassifier :=
  { decision_tree := { fitted := none }
    naive_bayes := { fitted := none }
    log_regression := { fitted := none }
    weights := initialWeights
    training_data := none }

/-- Python `round` to an integer: round half to even (banker's rounding). -/
def roundHalfEven (q : ℚ) : ℤ :=
  if q - ⌊q⌋ < 1/2 then ⌊q⌋
  else if (1 : ℚ)/2 < q - ⌊q⌋ then ⌊q⌋ + 1
  else if ⌊q⌋ % 2 = 0 then ⌊q⌋ else ⌊q⌋ + 1

/-- Python `round(q, 3)`. -/
def round3 (q : ℚ) : ℚ :=
  (roundHalfEven (q * 1000) : ℚ) / 1000

/-- Transcribes `round(correct / total, 3) if total > 0 else 0` (ensemble.py lines 143-144). -/
def accuracy (correct total : Nat) : ℚ :=
  if 0 < total then round3 ((correct : ℚ) / total) else 0

/-- Per-model scores in an evaluation report. -/
structure ModelScores where
  category_score : ℚ
  priority_score : ℚ
  deriving DecidableEq

/-- An evaluation report: message plus the score mapping; `none` models the
empty mapping `{}` returned when no corpus is available. The triple is in the
fixed model order (decision_tree, naive_bayes, logistic_regression). -/
structure EvalReport where
  message : String
  scores : Option (ModelScores × ModelScores × ModelScores)
  deriving DecidableEq

/-- Message of the empty-corpus report (ensemble.py line 104). -/
def noDataMessage : String :=
  "Aucune donnee disponible pour evaluation"

/-- Message of a successful evaluation report (ensemble.py line 152). -/
def evalMessage (total : Nat) : String :=
  "Evaluation effectuee sur " ++ toString total ++ " exemples"

/-- Number of corpus records whose ground-truth category the member predicts
exactly (ensemble.py lines 113-138, `category_correct`). -/
def categoryCorrect (predict : List Email → String → String → ClassificationResult)
    (m : MemberModel) (td : List Email) : Nat :=
  (td.filter fun e =>
    (MemberModel.classify predict m (e.subject.getD "") (e.body.getD "")).category
      = e.category.getD "").length

/-- Number of corpus records whose ground-truth priority the member predicts
exactly (`priority_correct`). -/
def priorityCorrect (predict : List Email → String → String → ClassificationResult)
    (m : MemberModel) (td : List Email) : Nat :=
  (td.filter fun e =>
    (MemberModel.classify predict m (e.subject.getD "") (e.body.getD "")).priority
      = e.priority.getD "").length

/-- One member's entry in the evaluation score mapping. -/
def modelScores (predict : List Email → String → String → ClassificationResult)
    (m : MemberModel) (td : List Email) : ModelScores :=
  { category_score := accuracy (categoryCorrect predict m td) td.length
    priority_score := accuracy (priorityCorrect predict m td) td.length }

/-- Method `EmailClassifier.evaluate` (ensemble.py lines 100-154): message-only empty
report when no corpus was ever stored or the stored corpus is empty, otherwise
in-sample accuracy of every member on the stored corpus. -/
def EmailClassifier.evaluate (P : Predictors) (s : EmailClassifier) : EvalReport :=
  match s.training_data with
  | none => { message := noDataMessage, scores := none }
  | some td =>
    if td.isEmpty then { message := noDataMessage, scores := none }
    else
      { message := evalMessage td.length
        scores := some (modelScores P.dtPredict s.decision_tree td,
                        modelScores P.nbPredict s.naive_bayes td,
                        modelScores P.lrPredict s.log_regression td) }

/-- Composite score of one model: `0.6 * cat_score + 0.4 * pri_score`
(ensemble.py line 52). -/
def compositeOf (ms : ModelScores) : ℚ :=
  6/10 * ms.category_score + 4/10 * ms.priority_score

/-- Transcribes `total_score = sum(composite_scores.values())` over the three models. -/
def totalComposite (sd sn sl : ModelScores) : ℚ :=
  compositeOf sd + compositeOf sn + compositeOf sl

/-- Transcribes `normalized_score = score / total_score if total_score > 0 else 1.0 / len(...)`
(ensemble.py line 63; the `else` arm is unreachable there because the whole
block runs under `if total_score > 0`, transcribed faithfully). -/
def normScore (c total : ℚ) : ℚ :=
  if 0 < total then c / total else 1/3

/-- The inertia blend `0.7 * old + 0.3 * normalized` (ensemble.py line 64). -/
def blendWeight (old norm : ℚ) : ℚ :=
  7/10 * old + 3/10 * norm

/-- The `new_weights` dict of ensemble.py lines 60-64: each old weight
blended with the corresponding normalized composite score. The `.get(model,
0.3)` default of line 64 never fires because the weight mapping always holds
exactly the three model keys. -/
def blendedWeights (w : Weights) (sd sn sl : ModelScores) : Weights :=
  { decision_tree := blendWeight w.decision_tree (normScore (compositeOf sd) (totalComposite sd sn sl))
    naive_bayes := blendWeight w.naive_bayes (normScore (compositeOf sn) (totalComposite sd sn sl))
    logistic_regression := blendWeight w.logistic_regression (normScore (compositeOf sl) (totalComposite sd sn sl)) }

/-- Lines 54-73 of ensemble.py, after the composite scores are computed:
if the total composite score is positive, blend each old weight with the
normalized score, then renormalize by the blended sum when that sum is
positive; in every other case return the current weights unchanged. -/
def weightUpdateCore (w : Weights) (sd sn sl : ModelScores) : Weights :=
  if 0 < totalComposite sd sn sl then
    if 0 < Weights.sum (blendedWeights w sd sn sl) then
      { decision_tree := (blendedWeights w sd sn sl).decision_tree / Weights.sum (blendedWeights w sd sn sl)
        naive_bayes := (blendedWeights w sd sn sl).naive_bayes / Weights.sum (blendedWeights w sd sn sl)
        logistic_regression := (blendedWeights w sd sn sl).logistic_regression / Weights.sum (blendedWeights w sd sn sl) }
    else w
  else w

/-- Method `EmailClassifier.update_model_weights` (ensemble.py lines 36-73): no
update without a stored corpus of at least 5 records; otherwise run the
evaluation and feed the scores through the inertia blend. An empty score
mapping (impossible here since the corpus is nonempty) yields total 0 and
hence unchanged weights in the source, transcribed as the `none` arm. -/
def EmailClassifier.update_model_weights (P : Predictors) (s : EmailClassifier) : Weights :=
  match s.training_data with
  | none => s.weights
  | some td =>
    if td.length < 5 then s.weights
    else
      match (EmailClassifier.evaluate P s).scores with
      | none => s.weights
      | some (sd, sn, sl) => weightUpdateCore s.weights sd sn sl

/-- The value returned by a successful `EmailClassifier.train` call (the
per-model `performance` entries are the constant strings "Not evaluated" in
the source and are omitted). -/
structure TrainOutput where
  num_samples : Nat
  model_weights : Weights
  deriving DecidableEq

/-- Method `EmailClassifier.train` (ensemble.py lines 75-97): store the new corpus
first, then train the three members in the fixed order; a member `train`
failure propagates immediately (members already trained keep their new state,
later members keep their old state, the new corpus stays stored); on success
run `update_model_weights` and store the result. -/
def EmailClassifier.train (P : Predictors) (s : EmailClassifier) (emails : List Email) :
    EmailClassifier × Except String TrainOutput :=
  let s1 : EmailClassifier := { s with training_data := some emails }
  match MemberModel.train s1.decision_tree emails with
  | .error msg => (s1, .error msg)
  | .ok dt2 =>
    let s2 : EmailClassifier := { s1 with decision_tree := dt2 }
    match MemberModel.train s2.naive_bayes emails with
    | .error msg => (s2, .error msg)
    | .ok nb2 =>
      let s3 : EmailClassifier := { s2 with naive_bayes := nb2 }
      match MemberModel.train s3.log_regression emails with
      | .error msg => (s3, .error msg)
      | .ok lr2 =>
        let s4 : EmailClassifier := { s3 with log_regression := lr2 }
        let w2 := EmailClassifier.update_model_weights P s4
        ({ s4 with weights := w2 },
         .ok { num_samples := emails.length, model_weights := w2 })

/-- The category labels proposed by the three members, in the fixed model
order; `classify` builds `all_categories = set(...)` from this list. -/
def proposedCategories (P : Predictors) (s : EmailClassifier) (subject body : String) :
    List String :=
  [(MemberModel.classify P.dtPredict s.decision_tree subject body).category,
   (MemberModel.classify P.nbPredict s.naive_bayes subject body).category,
   (MemberModel.classify P.lrPredict s.log_regression subject body).category]

/-- The priority labels proposed by the three members, in the fixed model
order. -/
def proposedPriorities (P : Predictors) (s : EmailClassifier) (subject body : String) :
    List String :=
  [(MemberModel.classify P.dtPredict s.decision_tree subject body).priority,
   (MemberModel.classify P.nbPredict s.naive_bayes subject body).priority,
   (MemberModel.classify P.lrPredict s.log_regression subject body).priority]

/-- Holds when `order` is a possible iteration order of the Python set of the elements
of `elems`: a duplicate-free enumeration of the distinct elements. -/
def IsSetOrder (order elems : List String) : Prop :=
  order.Perm elems.dedup

instance instDecidableIsSetOrder (order elems : List String) :
    Decidable (IsSetOrder order elems) :=
  inferInstanceAs (Decidable (List.Perm order elems.dedup))

/-- The (label, confidence * weight) category votes of the three members, in
the fixed iteration order of ensemble.py lines 172-179. -/
def categoryVotes (P : Predictors) (s : EmailClassifier) (subject body : String) :
    List (String × ℚ) :=
  [((MemberModel.classify P.dtPredict s.decision_tree subject body).category,
    (MemberModel.classify P.dtPredict s.decision_tree subject body).confidence * s.weights.decision_tree),
   ((MemberModel.classify P.nbPredict s.naive_bayes subject body).category,
    (MemberModel.classify P.nbPredict s.naive_bayes subject body).confidence * s.weights.naive_bayes),
   ((MemberModel.classify P.lrPredict s.log_regression subject body).category,
    (MemberModel.classify P.lrPredict s.log_regression subject body).confidence * s.weights.logistic_regression)]

/-- The (label, confidence * weight) priority votes, in the same order. -/
def priorityVotes (P : Predictors) (s : EmailClassifier) (subject body : String) :
    List (String × ℚ) :=
  [((MemberModel.classify P.dtPredict s.decision_tree subject body).priority,
    (MemberModel.classify P.dtPredict s.decision_tree subject body).confidence * s.weights.decision_tree),
   ((MemberModel.classify P.nbPredict s.naive_bayes subject body).priority,
    (MemberModel.classify P.nbPredict s.naive_bayes subject body).confidence * s.weights.naive_bayes),
   ((MemberModel.classify P.lrPredict s.log_regression subject body).priority,
    (MemberModel.classify P.lrPredict s.log_regression subject body).confidence * s.weights.logistic_regression)]

/-- The accumulated score of label `l`: the sum of the vote values carrying
exactly that label. -/
def voteScore (votes : List (String × ℚ)) (l : String) : ℚ :=
  ((votes.filter fun v => v.1 = l).map Prod.snd).sum

/-- The score dictionary `{label: accumulated score}` in iteration order
`order` (dict insertion order = the set's iteration order). -/
def scoreTable (order : List String) (votes : List (String × ℚ)) : List (String × ℚ) :=
  order.map fun l => (l, voteScore votes l)

/-- One step of Python `max(items, key=lambda x: x[1])`: the current best is
replaced only on a strictly greater value. -/
def pyMaxStep (acc : Option (String × ℚ)) (p : String × ℚ) : Option (String × ℚ) :=
  match acc with
  | none => some p
  | some q => if q.2 < p.2 then some p else some q

/-- Python `max(items, key=lambda x: x[1])`: scan left to right, replace the
current best only on a strictly greater value, so the first item attaining
the maximum wins ties. -/
def pyMaxItems (l : List (String × ℚ)) : Option (String × ℚ) :=
  l.foldl pyMaxStep none

/-- The final label: first component of the maximum of the score dictionary
(`max(...items(), key=lambda x: x[1])[0]`; the dictionary is never empty on
a real call, so the default is never reached). -/
def pyMaxLabel (order : List String) (votes : List (String × ℚ)) : String :=
  ((pyMaxItems (scoreTable order votes)).getD ("", 0)).1

/-- The weighted average confidence of ensemble.py lines 186-190. -/
def blendedConfidence (P : Predictors) (s : EmailClassifier) (subject body : String) : ℚ :=
  ((MemberModel.classify P.dtPredict s.decision_tree subject body).confidence * s.weights.decision_tree +
   (MemberModel.classify P.nbPredict s.naive_bayes subject body).confidence * s.weights.naive_bayes +
   (MemberModel.classify P.lrPredict s.log_regression subject body).confidence * s.weights.logistic_regression) /
    Weights.sum s.weights

/-- The value returned by `EmailClassifier.classify`. -/
structure EnsembleDecision where
  category : String
  priority : String
  confidence : ℚ
  model_weights : Weights
  dt_result : ClassificationResult
  nb_result : ClassificationResult
  lr_result : ClassificationResult
  deriving DecidableEq

/-- Method `EmailClassifier.classify` (ensemble.py lines 157-202). `catOrder` and
`priOrder` are the iteration orders of the Python sets `all_categories` and
`all_priorities`; for any order that enumerates the proposed labels the score
dictionary is nonempty, so the `getD` default is never reached. The method
reads but never mutates the ensemble state. -/
def EmailClassifier.classify (P : Predictors) (s : EmailClassifier)
    (catOrder priOrder : List String) (subject body : String) : EnsembleDecision :=
  { category := pyMaxLabel catOrder (categoryVotes P s subject body)
    priority := pyMaxLabel priOrder (priorityVotes P s subject body)
    confidence := blendedConfidence P s subject body
    model_weights := s.weights
    dt_result := MemberModel.classify P.dtPredict s.decision_tree subject body
    nb_result := MemberModel.classify P.nbPredict s.naive_bayes subject body
    lr_result := MemberModel.classify P.lrPredict s.log_regression subject body }

/-- Reachable states of the aggregator: the constructed initial state, plus
any sequence of `train` calls (the `_load_initial_data` bootstrap is itself a
`train` call). `classify` and `evaluate` assign no attribute in the source,
so they induce no state transition. -/
inductive Reachable (P : Predictors) : EmailClassifier → Prop where
  | init : Reachable P initialState
  | next : ∀ s emails, Reachable P s → Reachable P (EmailClassifier.train P s emails).1

/-- A concrete instantiation of the opaque prediction behaviour, used to
instantiate universally quantified statements on concrete states. -/
def trivialPredictors : Predictors :=
  { dtPredict := fun _ _ _ => fallbackResult
    nbPredict := fun _ _ _ => fallbackResult
    lrPredict := fun _ _ _ => fallbackResult }

/-- The weight-adaptation core preserves a unit weight sum: the renormalized
branch sums to 1 by construction, every other branch returns the input. -/
theorem weightUpdateCore_sum (w : Weights) (sd sn sl : ModelScores)
    (h : Weights.sum w = 1) : Weights.sum (weightUpdateCore w sd sn sl) = 1 := by
  unfold weightUpdateCore
  split_ifs with h1 h2
  · show Weights.sum _ = 1
    simp only [Weights.sum]
    rw [div_add_div_same, div_add_div_same, ← Weights.sum, div_self (ne_of_gt h2)]
  · exact h
  · exact h

/-- Method `update_model_weights` preserves a unit weight sum. -/
theorem update_model_weights_sum (P : Predictors) (s : EmailClassifier)
    (h : Weights.sum s.weights = 1) :
    Weights.sum (EmailClassifier.update_model_weights P s) = 1 := by
  unfold EmailClassifier.update_model_weights
  cases htd : s.training_data with
  | none => exact h
  | some td =>
    by_cases hlen : td.length < 5
    · simp only [hlen, if_true]
      exact h
    · simp only [hlen, if_false]
      cases hsc : (EmailClassifier.evaluate P s).scores with
      | none => exact h
      | some trip => exact weightUpdateCore_sum _ _ _ _ h

/-- Method `train` preserves a unit weight sum, on the error paths as well as on the
success path. -/
theorem train_weights_sum (P : Predictors) (s : EmailClassifier) (emails : List Email)
    (h : Weights.sum s.weights = 1) :
    Weights.sum ((EmailClassifier.train P s emails).1).weights = 1 := by
  unfold EmailClassifier.train
  cases hall : emails.all hasAllFields with
  | false => simp only [MemberModel.train, hall, Bool.false_eq_true, if_false]; exact h
  | true =>
    simp only [MemberModel.train, hall, if_true]
    exact update_model_weights_sum P _ h

/-- In every reachable aggregator state the weights sum to exactly 1. -/
theorem reachable_weights_sum (P : Predictors) (s : EmailClassifier)
    (h : Reachable P s) : Weights.sum s.weights = 1 := by
  induction h with
  | init => norm_num [initialState, initialWeights, Weights.sum]
  | next s emails _ ih => exact train_weights_sum P s emails ih

/-- C1: for every reachable state of the aggregator state machine (starting
from the initial weights 0.4/0.3/0.3 and stepping by any sequence of
train/classify/evaluate calls — classify and evaluate mutate nothing), the
sum of the model weights is within 1e-6 of 1 (in the exact-rational model it
equals 1). -/
theorem C1_weight_invariant (P : Predictors) (s : EmailClassifier)
    (h : Reachable P s) : |Weights.sum s.weights - 1| ≤ 1/1000000 := by
  rw [reachable_weights_sum P s h]
  norm_num

/-- Witness for C1 at the initial state. -/
theorem C1_weight_invariant_witness :
    |Weights.sum initialState.weights - 1| ≤ 1/1000000 :=
  C1_weight_invariant trivialPredictors initialState Reachable.init

/-- A record with a missing `subject` field, for concrete instantiations. -/
def badEmail : Email :=
  { subject := none, body := some "b", category := some "c", priority := some "p" }

/-- A fully populated record, for concrete instantiations. -/
def goodEmail : Email :=
  { subject := some "s", body := some "b", category := some "c", priority := some "p" }

/-- When some record lacks a field, `train` stores the new corpus, fails on
the first member and returns the error without touching anything else. -/
theorem train_of_missing_field (P : Predictors) (s : EmailClassifier) (emails : List Email)
    (hall : emails.all hasAllFields = false) :
    EmailClassifier.train P s emails =
      ({ s with training_data := some emails },
       .error "KeyError: missing required field in training record") := by
  unfold EmailClassifier.train
  simp only [MemberModel.train, hall, Bool.false_eq_true, if_false]

/-- A missing-field hypothesis gives `List.all hasAllFields = false`. -/
theorem all_fields_false_of_witness (emails : List Email)
    (h : ∃ e ∈ emails, hasAllFields e = false) : emails.all hasAllFields = false := by
  rcases h with ⟨e, he, hf⟩
  rw [List.all_eq_false]
  exact ⟨e, he, by simp [hf]⟩

/-- C4: `train` on a corpus of fewer than 5 examples leaves the weight
mapping exactly identical to its pre-call value (on the failure paths because
weights are only written after all members trained, on the success path
because `update_model_weights` returns the current weights unchanged under
the small-corpus guard). -/
theorem C4_small_corpus_guard (P : Predictors) (s : EmailClassifier) (emails : List Email)
    (h : emails.length < 5) :
    ((EmailClassifier.train P s emails).1).weights = s.weights := by
  unfold EmailClassifier.train
  cases hall : emails.all hasAllFields with
  | false => simp only [MemberModel.train, hall, Bool.false_eq_true, if_false]
  | true =>
    simp only [MemberModel.train, hall, if_true]
    show EmailClassifier.update_model_weights P _ = s.weights
    unfold EmailClassifier.update_model_weights
    simp only [h, if_true]

/-- Witness for C4: the empty corpus. -/
theorem C4_small_corpus_guard_witness :
    ((EmailClassifier.train trivialPredictors initialState []).1).weights
      = initialState.weights :=
  C4_small_corpus_guard trivialPredictors initialState [] (by norm_num)

/-- C8: if any training record lacks one of the four required fields, `train`
surfaces an error to the caller and no member classifier's trained state is
updated (nor are the weights). -/
theorem C8_missing_field_aborts (P : Predictors) (s : EmailClassifier) (emails : List Email)
    (h : ∃ e ∈ emails, hasAllFields e = false) :
    (∃ msg, (EmailClassifier.train P s emails).2 = .error msg) ∧
    ((EmailClassifier.train P s emails).1).decision_tree = s.decision_tree ∧
    ((EmailClassifier.train P s emails).1).naive_bayes = s.naive_bayes ∧
    ((EmailClassifier.train P s emails).1).log_regression = s.log_regression ∧
    ((EmailClassifier.train P s emails).1).weights = s.weights := by
  rw [train_of_missing_field P s emails (all_fields_false_of_witness emails h)]
  exact ⟨⟨_, rfl⟩, rfl, rfl, rfl, rfl⟩

/-- Witness for C8: a one-record corpus whose record lacks `subject`. -/
theorem C8_missing_field_aborts_witness :
    (∃ msg, (EmailClassifier.train trivialPredictors initialState [badEmail]).2 = .error msg) ∧
    ((EmailClassifier.train trivialPredictors initialState [badEmail]).1).decision_tree
      = initialState.decision_tree ∧
    ((EmailClassifier.train trivialPredictors initialState [badEmail]).1).naive_bayes
      = initialState.naive_bayes ∧
    ((EmailClassifier.train trivialPredictors initialState [badEmail]).1).log_regression
      = initialState.log_regression ∧
    ((EmailClassifier.train trivialPredictors initialState [badEmail]).1).weights
      = initialState.weights :=
  C8_missing_field_aborts trivialPredictors initialState [badEmail]
    ⟨badEmail, by decide, by decide⟩

/-- C9: `evaluate` on an ensemble whose corpus is absent or empty returns the
explanatory message with an empty score mapping; being a total function of
the state, it never fails and performs no division (the accuracy division is
guarded by `total > 0`). -/
theorem C9_evaluate_empty (P : Predictors) (s : EmailClassifier)
    (h : s.training_data = none ∨ s.training_data = some []) :
    EmailClassifier.evaluate P s = { message := noDataMessage, scores := none } := by
  unfold EmailClassifier.evaluate
  rcases h with h | h
  · rw [h]
  · rw [h]; rfl

/-- Witness for C9: the freshly constructed ensemble. -/
theorem C9_evaluate_empty_witness :
    EmailClassifier.evaluate trivialPredictors initialState
      = { message := noDataMessage, scores := none } :=
  C9_evaluate_empty trivialPredictors initialState (Or.inl rfl)

/-- C10: `train` is not atomic — the stored corpus is replaced before any
member classifier trains, so a `train` call failing on a malformed record
leaves the ensemble holding the new (malformed) corpus while every member
classifier keeps its previous trained state. -/
theorem C10_train_not_atomic (P : Predictors) (s : EmailClassifier) (emails : List Email)
    (h : ∃ e ∈ emails, hasAllFields e = false) :
    ((EmailClassifier.train P s emails).1).training_data = some emails ∧
    ((EmailClassifier.train P s emails).1).decision_tree = s.decision_tree ∧
    ((EmailClassifier.train P s emails).1).naive_bayes = s.naive_bayes ∧
    ((EmailClassifier.train P s emails).1).log_regression = s.log_regression ∧
    (∃ msg, (EmailClassifier.train P s emails).2 = .error msg) := by
  rw [train_of_missing_field P s emails (all_fields_false_of_witness emails h)]
  exact ⟨rfl, rfl, rfl, rfl, ⟨_, rfl⟩⟩

/-- Witness for C10: a previously trained ensemble fed one malformed record. -/
theorem C10_train_not_atomic_witness :
    ((EmailClassifier.train trivialPredictors
        (EmailClassifier.train trivialPredictors initialState [goodEmail]).1
        [badEmail]).1).training_data = some [badEmail] ∧
    ((EmailClassifier.train trivialPredictors
        (EmailClassifier.train trivialPredictors initialState [goodEmail]).1
        [badEmail]).1).decision_tree
      = ((EmailClassifier.train trivialPredictors initialState [goodEmail]).1).decision_tree ∧
    ((EmailClassifier.train trivialPredictors
        (EmailClassifier.train trivialPredictors initialState [goodEmail]).1
        [badEmail]).1).naive_bayes
      = ((EmailClassifier.train trivialPredictors initialState [goodEmail]).1).naive_bayes ∧
    ((EmailClassifier.train trivialPredictors
        (EmailClassifier.train trivialPredictors initialState [goodEmail]).1
        [badEmail]).1).log_regression
      = ((EmailClassifier.train trivialPredictors initialState [goodEmail]).1).log_regression ∧
    (∃ msg, (EmailClassifier.train trivialPredictors
        (EmailClassifier.train trivialPredictors initialState [goodEmail]).1
        [badEmail]).2 = .error msg) :=
  C10_train_not_atomic trivialPredictors
    (EmailClassifier.train trivialPredictors initialState [goodEmail]).1 [badEmail]
    ⟨badEmail, by decide, by decide⟩

/-- The spec's description of the degenerate-case adaptation, written from
the spec's words for comparison with the code: on a total composite score of
0 every model's normalized score falls back to the uniform `1/num_models`
(= 1/3), the inertia blend is applied against that uniform distribution, and
the blended weights are renormalized by their sum. -/
def specUniformFallbackUpdate (w : Weights) : Weights :=
  { decision_tree := (7/10 * w.decision_tree + 3/10 * (1/3)) /
      ((7/10 * w.decision_tree + 3/10 * (1/3)) + (7/10 * w.naive_bayes + 3/10 * (1/3)) +
       (7/10 * w.logistic_regression + 3/10 * (1/3)))
    naive_bayes := (7/10 * w.naive_bayes + 3/10 * (1/3)) /
      ((7/10 * w.decision_tree + 3/10 * (1/3)) + (7/10 * w.naive_bayes + 3/10 * (1/3)) +
       (7/10 * w.logistic_regression + 3/10 * (1/3)))
    logistic_regression := (7/10 * w.logistic_regression + 3/10 * (1/3)) /
      ((7/10 * w.decision_tree + 3/10 * (1/3)) + (7/10 * w.naive_bayes + 3/10 * (1/3)) +
       (7/10 * w.logistic_regression + 3/10 * (1/3))) }

/-- C2 counterexample: at the initial weights with an all-zero evaluation
(total composite score 0) the adaptation core returns the weights unchanged,
while the spec's uniform-distribution fallback would change them (to
0.38/0.31/0.31) — the `1.0 / len(composite_scores)` expression of ensemble.py
line 63 is dead code inside the `total_score > 0` branch. -/
theorem C2_counterexample :
    weightUpdateCore initialWeights { category_score := 0, priority_score := 0 }
        { category_score := 0, priority_score := 0 }
        { category_score := 0, priority_score := 0 } = initialWeights ∧
    specUniformFallbackUpdate initialWeights ≠ initialWeights := by
  constructor
  · with_unfolding_all decide
  · with_unfolding_all decide

/-- When a corpus of at least 5 records is stored and the evaluation yields
the given scores, `update_model_weights` is exactly the adaptation core
applied to the current weights and those scores. -/
theorem update_model_weights_eq_core (P : Predictors) (s : EmailClassifier)
    (td : List Email) (sd sn sl : ModelScores)
    (h1 : s.training_data = some td) (h2 : 5 ≤ td.length)
    (h3 : (EmailClassifier.evaluate P s).scores = some (sd, sn, sl)) :
    EmailClassifier.update_model_weights P s = weightUpdateCore s.weights sd sn sl := by
  unfold EmailClassifier.update_model_weights
  rw [h1]
  simp only [if_neg (Nat.not_lt.mpr h2), h3]

/-- C2 (amended): during weight adaptation on a stored corpus of at least 5
records, a total composite score of 0 leaves the weights unchanged (the
entire blend runs only under `total_score > 0`), and no division by zero is
ever performed — the update is a total function. -/
theorem C2_zero_total_keeps_weights (P : Predictors) (s : EmailClassifier)
    (td : List Email) (sd sn sl : ModelScores)
    (h1 : s.training_data = some td) (h2 : 5 ≤ td.length)
    (h3 : (EmailClassifier.evaluate P s).scores = some (sd, sn, sl))
    (h4 : totalComposite sd sn sl = 0) :
    EmailClassifier.update_model_weights P s = s.weights := by
  rw [update_model_weights_eq_core P s td sd sn sl h1 h2 h3]
  unfold weightUpdateCore
  rw [h4]
  norm_num

/-- A stored 5-record corpus on an otherwise untrained ensemble: every member
answers with the fallback, so every evaluation score is 0. -/
def zeroScoresState : EmailClassifier :=
  { initialState with training_data := some (List.replicate 5 goodEmail) }

/-- Witness for the amended C2. -/
theorem C2_zero_total_keeps_weights_witness :
    EmailClassifier.update_model_weights trivialPredictors zeroScoresState
      = zeroScoresState.weights :=
  C2_zero_total_keeps_weights trivialPredictors zeroScoresState
    (List.replicate 5 goodEmail)
    { category_score := 0, priority_score := 0 }
    { category_score := 0, priority_score := 0 }
    { category_score := 0, priority_score := 0 }
    rfl (by decide) (by with_unfolding_all rfl) (by with_unfolding_all decide)

/-- The spec's description of one non-degenerate adaptation round, written
from the spec's words for comparison with the code: `normalized_score[m] =
composite[m] / total`, `new_weight[m] = 0.7 * current[m] + 0.3 *
normalized_score[m]`, stored weights = `new_weight[m]` divided by the sum of
the three new weights. -/
def specInertiaBlend (w : Weights) (sd sn sl : ModelScores) : Weights :=
  { decision_tree := (7/10 * w.decision_tree + 3/10 * (compositeOf sd / totalComposite sd sn sl)) /
      ((7/10 * w.decision_tree + 3/10 * (compositeOf sd / totalComposite sd sn sl)) +
       (7/10 * w.naive_bayes + 3/10 * (compositeOf sn / totalComposite sd sn sl)) +
       (7/10 * w.logistic_regression + 3/10 * (compositeOf sl / totalComposite sd sn sl)))
    naive_bayes := (7/10 * w.naive_bayes + 3/10 * (compositeOf sn / totalComposite sd sn sl)) /
      ((7/10 * w.decision_tree + 3/10 * (compositeOf sd / totalComposite sd sn sl)) +
       (7/10 * w.naive_bayes + 3/10 * (compositeOf sn / totalComposite sd sn sl)) +
       (7/10 * w.logistic_regression + 3/10 * (compositeOf sl / totalComposite sd sn sl)))
    logistic_regression := (7/10 * w.logistic_regression + 3/10 * (compositeOf sl / totalComposite sd sn sl)) /
      ((7/10 * w.decision_tree + 3/10 * (compositeOf sd / totalComposite sd sn sl)) +
       (7/10 * w.naive_bayes + 3/10 * (compositeOf sn / totalComposite sd sn sl)) +
       (7/10 * w.logistic_regression + 3/10 * (compositeOf sl / totalComposite sd sn sl))) }

/-- The three normalized scores sum to 1 when the total is positive. -/
theorem normScore_total (sd sn sl : ModelScores) (h : 0 < totalComposite sd sn sl) :
    normScore (compositeOf sd) (totalComposite sd sn sl)
      + normScore (compositeOf sn) (totalComposite sd sn sl)
      + normScore (compositeOf sl) (totalComposite sd sn sl) = 1 := by
  simp only [normScore, if_pos h]
  rw [div_add_div_same, div_add_div_same, ← totalComposite, div_self (ne_of_gt h)]

/-- With nonnegative current weights and a positive total composite score the
blended sum is at least 0.3, so the renormalization branch is taken. -/
theorem blendedWeights_sum_pos (w : Weights) (sd sn sl : ModelScores)
    (hw1 : 0 ≤ w.decision_tree) (hw2 : 0 ≤ w.naive_bayes)
    (hw3 : 0 ≤ w.logistic_regression) (h : 0 < totalComposite sd sn sl) :
    0 < Weights.sum (blendedWeights w sd sn sl) := by
  have hns := normScore_total sd sn sl h
  simp only [Weights.sum, blendedWeights, blendWeight]
  nlinarith [hns, hw1, hw2, hw3]

/-- C5: whenever weight adaptation runs on a stored corpus of at least 5
records whose evaluation has a positive total composite score, and the
current weights are nonnegative (as they are in every reachable state), the
stored weights are exactly the spec's formula: the 0.7/0.3 inertia blend of
each current weight with the normalized composite score, renormalized by the
sum of the three blended values. -/
theorem C5_inertia_blend (P : Predictors) (s : EmailClassifier)
    (td : List Email) (sd sn sl : ModelScores)
    (hw1 : 0 ≤ s.weights.decision_tree) (hw2 : 0 ≤ s.weights.naive_bayes)
    (hw3 : 0 ≤ s.weights.logistic_regression)
    (h1 : s.training_data = some td) (h2 : 5 ≤ td.length)
    (h3 : (EmailClassifier.evaluate P s).scores = some (sd, sn, sl))
    (h4 : 0 < totalComposite sd sn sl) :
    EmailClassifier.update_model_weights P s = specInertiaBlend s.weights sd sn sl := by
  have hbs := blendedWeights_sum_pos s.weights sd sn sl hw1 hw2 hw3 h4
  rw [update_model_weights_eq_core P s td sd sn sl h1 h2 h3]
  unfold weightUpdateCore
  rw [if_pos h4, if_pos hbs]
  simp only [specInertiaBlend, blendedWeights, blendWeight, normScore, Weights.sum, if_pos h4]

/-- Prediction behaviour that always answers `goodEmail`'s labels with full
confidence, for concrete instantiations that need perfect scores. -/
def constPredictors : Predictors :=
  { dtPredict := fun _ _ _ => { category := "c", priority := "p", confidence := 1 }
    nbPredict := fun _ _ _ => { category := "c", priority := "p", confidence := 1 }
    lrPredict := fun _ _ _ => { category := "c", priority := "p", confidence := 1 } }

/-- A fully trained ensemble holding a stored 5-record corpus. -/
def trainedState : EmailClassifier :=
  { decision_tree := { fitted := some (List.replicate 5 goodEmail) }
    naive_bayes := { fitted := some (List.replicate 5 goodEmail) }
    log_regression := { fitted := some (List.replicate 5 goodEmail) }
    weights := initialWeights
    training_data := some (List.replicate 5 goodEmail) }

/-- Witness for C5: a perfectly scoring 5-record evaluation. -/
theorem C5_inertia_blend_witness :
    EmailClassifier.update_model_weights constPredictors trainedState
      = specInertiaBlend trainedState.weights
          { category_score := 1, priority_score := 1 }
          { category_score := 1, priority_score := 1 }
          { category_score := 1, priority_score := 1 } :=
  C5_inertia_blend constPredictors trainedState (List.replicate 5 goodEmail)
    { category_score := 1, priority_score := 1 }
    { category_score := 1, priority_score := 1 }
    { category_score := 1, priority_score := 1 }
    (by norm_num [trainedState, initialWeights]) (by norm_num [trainedState, initialWeights])
    (by norm_num [trainedState, initialWeights]) rfl (by decide)
    (by with_unfolding_all rfl) (by with_unfolding_all decide)

/-- When the total composite score is positive and the current weights sum
to 1, the blended weights already sum to 1 (0.7 · 1 + 0.3 · 1), so the stored
decision-tree weight is the plain inertia blend with its normalized score. -/
theorem weightUpdateCore_dt_of_pos (w : Weights) (sd sn sl : ModelScores)
    (hsum : Weights.sum w = 1) (ht : 0 < totalComposite sd sn sl) :
    (weightUpdateCore w sd sn sl).decision_tree
      = 7/10 * w.decision_tree + 3/10 * (compositeOf sd / totalComposite sd sn sl) := by
  have hns := normScore_total sd sn sl ht
  have hbs : Weights.sum (blendedWeights w sd sn sl) = 1 := by
    simp only [Weights.sum, blendedWeights, blendWeight] at hsum ⊢
    linarith [hns]
  unfold weightUpdateCore
  rw [if_pos ht,
    if_pos (show (0:ℚ) < Weights.sum (blendedWeights w sd sn sl) by rw [hbs]; norm_num)]
  show (blendedWeights w sd sn sl).decision_tree / Weights.sum (blendedWeights w sd sn sl) = _
  rw [hbs, div_one]
  simp only [blendedWeights, blendWeight, normScore, if_pos ht]

/-- C6 (amended): across two consecutive adaptation rounds on corpora of at
least 5 records in which one model (decision_tree, representative by
symmetry) scores strictly higher composite accuracy than the other two in
both evaluations, that model's weight after the second round is ≥ its weight
after the first round PROVIDED its normalized composite score in the second
evaluation is at least its weight after the first round. (Without that
proviso the claim is false — the weight moves toward the normalized score,
which can drop while remaining the strictly highest; see the
counterexample.) -/
theorem C6_amended_weight_monotone (w0 : Weights) (sd1 sn1 sl1 sd2 sn2 sl2 : ModelScores)
    (hsum : Weights.sum w0 = 1)
    (_h11 : compositeOf sn1 < compositeOf sd1) (_h12 : compositeOf sl1 < compositeOf sd1)
    (h21 : compositeOf sn2 < compositeOf sd2) (_h22 : compositeOf sl2 < compositeOf sd2)
    (hn2 : 0 ≤ compositeOf sn2) (hl2 : 0 ≤ compositeOf sl2)
    (hge : (weightUpdateCore w0 sd1 sn1 sl1).decision_tree
             ≤ compositeOf sd2 / totalComposite sd2 sn2 sl2) :
    (weightUpdateCore w0 sd1 sn1 sl1).decision_tree
      ≤ (weightUpdateCore (weightUpdateCore w0 sd1 sn1 sl1) sd2 sn2 sl2).decision_tree := by
  have hw1 : Weights.sum (weightUpdateCore w0 sd1 sn1 sl1) = 1 :=
    weightUpdateCore_sum w0 sd1 sn1 sl1 hsum
  have ht2 : 0 < totalComposite sd2 sn2 sl2 := by
    unfold totalComposite
    linarith [h21, hn2, hl2]
  rw [weightUpdateCore_dt_of_pos _ sd2 sn2 sl2 hw1 ht2]
  linarith [hge]

/-- Witness for the amended C6: the decision tree evaluates perfectly twice. -/
theorem C6_amended_weight_monotone_witness :
    (weightUpdateCore initialWeights
        { category_score := 1, priority_score := 1 }
        { category_score := 0, priority_score := 0 }
        { category_score := 0, priority_score := 0 }).decision_tree
      ≤ (weightUpdateCore
          (weightUpdateCore initialWeights
            { category_score := 1, priority_score := 1 }
            { category_score := 0, priority_score := 0 }
            { category_score := 0, priority_score := 0 })
          { category_score := 1, priority_score := 1 }
          { category_score := 0, priority_score := 0 }
          { category_score := 0, priority_score := 0 }).decision_tree :=
  C6_amended_weight_monotone initialWeights
    { category_score := 1, priority_score := 1 }
    { category_score := 0, priority_score := 0 }
    { category_score := 0, priority_score := 0 }
    { category_score := 1, priority_score := 1 }
    { category_score := 0, priority_score := 0 }
    { category_score := 0, priority_score := 0 }
    (by norm_num [Weights.sum, initialWeights])
    (by with_unfolding_all decide) (by with_unfolding_all decide)
    (by with_unfolding_all decide) (by with_unfolding_all decide)
    (by with_unfolding_all decide) (by with_unfolding_all decide)
    (by with_unfolding_all decide)

/-- A well-formed record carrying the C6 scenario's ground truth. -/
def c6Email (subj : String) : Email :=
  { subject := some subj, body := some "b", category := some "x", priority := some "h" }

/-- First C6 corpus: 5 records. -/
def c6Corpus1 : List Email :=
  [c6Email "s1", c6Email "s2", c6Email "s3", c6Email "s4", c6Email "s5"]

/-- Second (grown) C6 corpus: 10 records. -/
def c6Corpus2 : List Email :=
  [c6Email "a1", c6Email "a2", c6Email "a3", c6Email "a4", c6Email "a5",
   c6Email "a6", c6Email "a7", c6Email "a8", c6Email "a9", c6Email "a10"]

/-- Fitted behaviour realizing the C6 counterexample scenario: on the first
corpus (length 5) the decision tree is always right and the other two always
wrong; on the second corpus (length 10) the decision tree is right on 4 of
the 10 records, the other two on 2 of the 10. -/
def c6Predictors : Predictors :=
  { dtPredict := fun corpus subj _ =>
      if corpus.length = 5 then { category := "x", priority := "h", confidence := 1 }
      else if subj = "a1" ∨ subj = "a2" ∨ subj = "a3" ∨ subj = "a4" then
        { category := "x", priority := "h", confidence := 1 }
      else { category := "y", priority := "l", confidence := 1 }
    nbPredict := fun corpus subj _ =>
      if corpus.length = 5 then { category := "y", priority := "l", confidence := 1 }
      else if subj = "a1" ∨ subj = "a2" then { category := "x", priority := "h", confidence := 1 }
      else { category := "y", priority := "l", confidence := 1 }
    lrPredict := fun corpus subj _ =>
      if corpus.length = 5 then { category := "y", priority := "l", confidence := 1 }
      else if subj = "a1" ∨ subj = "a2" then { category := "x", priority := "h", confidence := 1 }
      else { category := "y", priority := "l", confidence := 1 } }

/-- State after the first C6 `train` call. -/
def c6State1 : EmailClassifier :=
  (EmailClassifier.train c6Predictors initialState c6Corpus1).1

/-- State after the second C6 `train` call. -/
def c6State2 : EmailClassifier :=
  (EmailClassifier.train c6Predictors c6State1 c6Corpus2).1

/-- C6 counterexample: two consecutive `train` calls on growing corpora of 5
and 10 records in which the decision tree scores strictly higher composite
accuracy than both other models in both evaluations (composites 1 vs 0, then
0.28 vs 0.14), yet its weight strictly DECREASES from the first call
(0.58) to the second (0.556) — the claim's monotonicity fails because the
weight is pulled toward the normalized score, which dropped. -/
theorem C6_counterexample :
    5 ≤ c6Corpus1.length ∧ c6Corpus1.length ≤ c6Corpus2.length ∧ 5 ≤ c6Corpus2.length ∧
    (EmailClassifier.evaluate c6Predictors c6State1).scores
      = some ({ category_score := 1, priority_score := 1 },
              { category_score := 0, priority_score := 0 },
              { category_score := 0, priority_score := 0 }) ∧
    (EmailClassifier.evaluate c6Predictors c6State2).scores
      = some ({ category_score := 2/5, priority_score := 2/5 },
              { category_score := 1/5, priority_score := 1/5 },
              { category_score := 1/5, priority_score := 1/5 }) ∧
    compositeOf { category_score := 0, priority_score := 0 }
      < compositeOf { category_score := 1, priority_score := 1 } ∧
    compositeOf { category_score := 1/5, priority_score := 1/5 }
      < compositeOf { category_score := 2/5, priority_score := 2/5 } ∧
    c6State2.weights.decision_tree < c6State1.weights.decision_tree := by
  refine ⟨by decide, by decide, by decide, ?_, ?_, ?_, ?_, ?_⟩
  · with_unfolding_all decide
  · with_unfolding_all decide
  · with_unfolding_all decide
  · with_unfolding_all decide
  · with_unfolding_all decide

/-- Combining step of the first-argmax characterization: an earlier element
`x` beats the best of the rest exactly when its value is at least as large. -/
def firstArgmaxStep (x : String × ℚ) (o : Option (String × ℚ)) : Option (String × ℚ) :=
  match o with
  | none => some x
  | some p => if p.2 ≤ x.2 then some x else some p

/-- Recursive characterization of Python's left-to-right max with strict
replacement: the first element attaining the maximum. -/
def firstArgmax : List (String × ℚ) → Option (String × ℚ)
  | [] => none
  | x :: rest => firstArgmaxStep x (firstArgmax rest)

/-- The fold underlying `pyMaxItems`, started from a current best `q`,
combines `q` with the first argmax of the remaining list. -/
theorem foldl_pyMaxStep_some (xs : List (String × ℚ)) : ∀ q : String × ℚ,
    xs.foldl pyMaxStep (some q) = firstArgmaxStep q (firstArgmax xs) := by
  induction xs with
  | nil => intro q; rfl
  | cons x rest ih =>
    intro q
    rw [List.foldl_cons]
    show List.foldl pyMaxStep (if q.2 < x.2 then some x else some q) rest
        = firstArgmaxStep q (firstArgmaxStep x (firstArgmax rest))
    by_cases hqx : q.2 < x.2
    · rw [if_pos hqx, ih x]
      cases firstArgmax rest with
      | none =>
        simp only [firstArgmaxStep]
        rw [if_neg (not_le.mpr hqx)]
      | some p =>
        simp only [firstArgmaxStep]
        by_cases hpx : p.2 ≤ x.2
        · rw [if_pos hpx]
          simp only [firstArgmaxStep]
          rw [if_neg (not_le.mpr hqx)]
        · rw [if_neg hpx]
          simp only [firstArgmaxStep]
          rw [if_neg (not_le.mpr (hqx.trans (not_le.mp hpx)))]
    · rw [if_neg hqx, ih q]
      cases firstArgmax rest with
      | none =>
        simp only [firstArgmaxStep]
        rw [if_pos (not_lt.mp hqx)]
      | some p =>
        simp only [firstArgmaxStep]
        by_cases hpx : p.2 ≤ x.2
        · rw [if_pos hpx, if_pos (hpx.trans (not_lt.mp hqx))]
          simp only [firstArgmaxStep]
          rw [if_pos (not_lt.mp hqx)]
        · rw [if_neg hpx]

/-- Python's `max(..., key=lambda x: x[1])` is the first argmax. -/
theorem pyMaxItems_eq (xs : List (String × ℚ)) : pyMaxItems xs = firstArgmax xs := by
  cases xs with
  | nil => rfl
  | cons x rest => exact foldl_pyMaxStep_some rest x

/-- The first argmax of a nonempty list: the list splits into a strict-lower
prefix, the returned element, and a no-greater suffix. -/
theorem firstArgmax_spec (xs : List (String × ℚ)) (hne : xs ≠ []) :
    ∃ t1 p t2, xs = t1 ++ p :: t2 ∧ firstArgmax xs = some p ∧
      (∀ r ∈ t1, r.2 < p.2) ∧ (∀ r ∈ t2, r.2 ≤ p.2) := by
  induction xs with
  | nil => exact absurd rfl hne
  | cons x rest ih =>
    by_cases hr : rest = []
    · subst hr
      exact ⟨[], x, [], rfl, rfl, (by intro r h; cases h), (by intro r h; cases h)⟩
    · obtain ⟨t1, p, t2, hx, hfa, hlt, hle⟩ := ih hr
      by_cases hpx : p.2 ≤ x.2
      · refine ⟨[], x, rest, rfl, ?_, (by intro r h; cases h), ?_⟩
        · show firstArgmaxStep x (firstArgmax rest) = some x
          rw [hfa]
          simp only [firstArgmaxStep]
          rw [if_pos hpx]
        · intro r hmem
          rw [hx] at hmem
          rcases List.mem_append.mp hmem with h | h
          · exact le_of_lt (lt_of_lt_of_le (hlt r h) hpx)
          · rcases List.mem_cons.mp h with h | h
            · rw [h]; exact hpx
            · exact le_trans (hle r h) hpx
      · refine ⟨x :: t1, p, t2, by rw [hx]; rfl, ?_, ?_, hle⟩
        · show firstArgmaxStep x (firstArgmax rest) = some p
          rw [hfa]
          simp only [firstArgmaxStep]
          rw [if_neg hpx]
        · intro r hmem
          rcases List.mem_cons.mp hmem with h | h
          · rw [h]; exact not_le.mp hpx
          · exact hlt r h

/-- Every entry of the score dictionary carries the accumulated score of its
label. -/
theorem scoreTable_mem (order : List String) (votes : List (String × ℚ))
    (r : String × ℚ) (h : r ∈ scoreTable order votes) : r.2 = voteScore votes r.1 := by
  rcases List.mem_map.mp h with ⟨l, _, hl⟩
  rw [← hl]

/-- The final label returned over a nonempty iteration order: it attains the
maximal accumulated score among all labels of the order, and it is the first
label of the order attaining that maximum. -/
theorem pyMaxLabel_spec (order : List String) (votes : List (String × ℚ))
    (hne : order ≠ []) :
    ∃ t1 t2, order = t1 ++ pyMaxLabel order votes :: t2 ∧
      (∀ l ∈ t1, voteScore votes l < voteScore votes (pyMaxLabel order votes)) ∧
      (∀ l ∈ order, voteScore votes l ≤ voteScore votes (pyMaxLabel order votes)) := by
  have htne : scoreTable order votes ≠ [] := by
    simpa [scoreTable] using hne
  obtain ⟨t1, p, t2, hdecomp, hfa, hlt, hle⟩ := firstArgmax_spec _ htne
  have hlabel : pyMaxLabel order votes = p.1 := by
    unfold pyMaxLabel
    rw [pyMaxItems_eq, hfa]
    rfl
  have hpmem : p ∈ scoreTable order votes := by
    rw [hdecomp]
    exact List.mem_append_right _ (List.mem_cons_self _ _)
  have hp2 : p.2 = voteScore votes p.1 := scoreTable_mem order votes p hpmem
  have horder : (scoreTable order votes).map Prod.fst = order := by
    simp [scoreTable, Function.comp_def]
  refine ⟨t1.map Prod.fst, t2.map Prod.fst, ?_, ?_, ?_⟩
  · rw [hlabel, ← horder, hdecomp]
    simp
  · intro l hl
    rcases List.mem_map.mp hl with ⟨r, hr, hrl⟩
    have hmem : r ∈ scoreTable order votes := by
      rw [hdecomp]
      exact List.mem_append_left _ hr
    have h2 := scoreTable_mem order votes r hmem
    rw [← hrl, ← h2, hlabel, ← hp2]
    exact hlt r hr
  · intro l hl
    have hmem : (l, voteScore votes l) ∈ scoreTable order votes :=
      List.mem_map.mpr ⟨l, hl, rfl⟩
    rw [hdecomp] at hmem
    rw [hlabel, ← hp2]
    rcases List.mem_append.mp hmem with h | h
    · exact le_of_lt (hlt _ h)
    · rcases List.mem_cons.mp h with h | h
      · rw [← h]
      · exact hle _ h

/-- An order enumerating the labels of a nonempty proposal list is nonempty. -/
theorem isSetOrder_ne_nil (order elems : List String) (h : IsSetOrder order elems)
    (hne : elems ≠ []) : order ≠ [] := by
  intro h0
  subst h0
  have hd : elems.dedup = [] := (List.Perm.nil_eq h).symm
  exact hne ((List.dedup_eq_nil _).mp hd)

/-- C3 (amended): for every `classify` call and every possible iteration
order of the Python set of proposed labels, the returned final category
attains the maximal accumulated weighted score (confidence × model weight)
over all proposed labels, and on ties it is the first label reaching that
maximum in the iteration order of the score dictionary — i.e. the insertion
order of the Python set — NOT the fixed model-list order; the final priority
obeys the same rule over the priority accumulator. -/
theorem C3_classify_argmax (P : Predictors) (s : EmailClassifier)
    (catOrder priOrder : List String) (subject body : String)
    (hc : IsSetOrder catOrder (proposedCategories P s subject body))
    (hp : IsSetOrder priOrder (proposedPriorities P s subject body)) :
    ((∀ l ∈ proposedCategories P s subject body,
        voteScore (categoryVotes P s subject body) l
          ≤ voteScore (categoryVotes P s subject body)
              (EmailClassifier.classify P s catOrder priOrder subject body).category) ∧
     (∃ t1 t2, catOrder
          = t1 ++ (EmailClassifier.classify P s catOrder priOrder subject body).category :: t2 ∧
        ∀ l ∈ t1, voteScore (categoryVotes P s subject body) l
          < voteScore (categoryVotes P s subject body)
              (EmailClassifier.classify P s catOrder priOrder subject body).category)) ∧
    ((∀ l ∈ proposedPriorities P s subject body,
        voteScore (priorityVotes P s subject body) l
          ≤ voteScore (priorityVotes P s subject body)
              (EmailClassifier.classify P s catOrder priOrder subject body).priority) ∧
     (∃ t1 t2, priOrder
          = t1 ++ (EmailClassifier.classify P s catOrder priOrder subject body).priority :: t2 ∧
        ∀ l ∈ t1, voteScore (priorityVotes P s subject body) l
          < voteScore (priorityVotes P s subject body)
              (EmailClassifier.classify P s catOrder priOrder subject body).priority)) := by
  have hcne : catOrder ≠ [] :=
    isSetOrder_ne_nil _ _ hc (by simp [proposedCategories])
  have hpne : priOrder ≠ [] :=
    isSetOrder_ne_nil _ _ hp (by simp [proposedPriorities])
  obtain ⟨ct1, ct2, hcdec, hclt, hcle⟩ :=
    pyMaxLabel_spec catOrder (categoryVotes P s subject body) hcne
  obtain ⟨pt1, pt2, hpdec, hplt, hple⟩ :=
    pyMaxLabel_spec priOrder (priorityVotes P s subject body) hpne
  refine ⟨⟨?_, ct1, ct2, hcdec, hclt⟩, ?_, pt1, pt2, hpdec, hplt⟩
  · intro l hl
    exact hcle l (hc.mem_iff.mpr (List.mem_dedup.mpr hl))
  · intro l hl
    exact hple l (hp.mem_iff.mpr (List.mem_dedup.mpr hl))

/-- Witness for the amended C3: a fresh ensemble, whose only proposed labels
are the fallback ones. -/
theorem C3_classify_argmax_witness :
    ((∀ l ∈ proposedCategories trivialPredictors initialState "s" "b",
        voteScore (categoryVotes trivialPredictors initialState "s" "b") l
          ≤ voteScore (categoryVotes trivialPredictors initialState "s" "b")
              (EmailClassifier.classify trivialPredictors initialState
                ["unknown"] ["medium"] "s" "b").category) ∧
     (∃ t1 t2, ["unknown"]
          = t1 ++ (EmailClassifier.classify trivialPredictors initialState
              ["unknown"] ["medium"] "s" "b").category :: t2 ∧
        ∀ l ∈ t1, voteScore (categoryVotes trivialPredictors initialState "s" "b") l
          < voteScore (categoryVotes trivialPredictors initialState "s" "b")
              (EmailClassifier.classify trivialPredictors initialState
                ["unknown"] ["medium"] "s" "b").category)) ∧
    ((∀ l ∈ proposedPriorities trivialPredictors initialState "s" "b",
        voteScore (priorityVotes trivialPredictors initialState "s" "b") l
          ≤ voteScore (priorityVotes trivialPredictors initialState "s" "b")
              (EmailClassifier.classify trivialPredictors initialState
                ["unknown"] ["medium"] "s" "b").priority) ∧
     (∃ t1 t2, ["medium"]
          = t1 ++ (EmailClassifier.classify trivialPredictors initialState
              ["unknown"] ["medium"] "s" "b").priority :: t2 ∧
        ∀ l ∈ t1, voteScore (priorityVotes trivialPredictors initialState "s" "b") l
          < voteScore (priorityVotes trivialPredictors initialState "s" "b")
              (EmailClassifier.classify trivialPredictors initialState
                ["unknown"] ["medium"] "s" "b").priority)) :=
  C3_classify_argmax trivialPredictors initialState ["unknown"] ["medium"] "s" "b"
    (by decide) (by decide)

/-- Crafted fitted behaviour producing a category tie: the decision tree
votes "a" with confidence 0.3 (score 0.3 · 0.4 = 0.12), naive bayes votes
"b" with confidence 0.4 (score 0.4 · 0.3 = 0.12), logistic regression votes
"cc" with confidence 0. -/
def tiePredictors : Predictors :=
  { dtPredict := fun _ _ _ => { category := "a", priority := "h", confidence := 3/10 }
    nbPredict := fun _ _ _ => { category := "b", priority := "h", confidence := 2/5 }
    lrPredict := fun _ _ _ => { category := "cc", priority := "l", confidence := 0 } }

/-- C3 counterexample: under a tie between "a" (decision tree, first in the
model-list order) and "b" (naive bayes), the valid set-iteration order
["b", "a", "cc"] makes `classify` return "b" — not "a", the label the
claim's fixed model-list tie-break dictates. The tie-break is governed by
the hash-dependent iteration order of the Python set of proposed labels. -/
theorem C3_counterexample :
    IsSetOrder ["b", "a", "cc"] (proposedCategories tiePredictors trainedState "s" "t") ∧
    IsSetOrder ["h", "l"] (proposedPriorities tiePredictors trainedState "s" "t") ∧
    voteScore (categoryVotes tiePredictors trainedState "s" "t") "a"
      = voteScore (categoryVotes tiePredictors trainedState "s" "t") "b" ∧
    (proposedCategories tiePredictors trainedState "s" "t").head? = some "a" ∧
    (EmailClassifier.classify tiePredictors trainedState
        ["b", "a", "cc"] ["h", "l"] "s" "t").category = "b" ∧
    ("b" : String) ≠ "a" := by
  refine ⟨?_, ?_, ?_, ?_, ?_, ?_⟩ <;> with_unfolding_all decide

/-- C7: `classify` on a fresh, never-trained ensemble returns the fallback
result (category "unknown", priority "medium", confidence 0) from every
member classifier, the final category "unknown", the final priority
"medium", and a blended confidence of 0. -/
theorem C7_fresh_fallback (P : Predictors) (subject body : String)
    (catOrder priOrder : List String)
    (hc : IsSetOrder catOrder (proposedCategories P initialState subject body))
    (hp : IsSetOrder priOrder (proposedPriorities P initialState subject body)) :
    (EmailClassifier.classify P initialState catOrder priOrder subject body).dt_result
      = fallbackResult ∧
    (EmailClassifier.classify P initialState catOrder priOrder subject body).nb_result
      = fallbackResult ∧
    (EmailClassifier.classify P initialState catOrder priOrder subject body).lr_result
      = fallbackResult ∧
    (EmailClassifier.classify P initialState catOrder priOrder subject body).category
      = "unknown" ∧
    (EmailClassifier.classify P initialState catOrder priOrder subject body).priority
      = "medium" ∧
    (EmailClassifier.classify P initialState catOrder priOrder subject body).confidence
      = 0 := by
  have hco : catOrder = ["unknown"] := by
    have hc2 : List.Perm catOrder ["unknown"] := by
      have hprop : proposedCategories P initialState subject body
          = ["unknown", "unknown", "unknown"] := rfl
      have hd : (proposedCategories P initialState subject body).dedup = ["unknown"] := by
        rw [hprop]; decide
      rw [IsSetOrder, hd] at hc
      exact hc
    exact List.perm_singleton.mp hc2
  have hpo : priOrder = ["medium"] := by
    have hp2 : List.Perm priOrder ["medium"] := by
      have hprop : proposedPriorities P initialState subject body
          = ["medium", "medium", "medium"] := rfl
      have hd : (proposedPriorities P initialState subject body).dedup = ["medium"] := by
        rw [hprop]; decide
      rw [IsSetOrder, hd] at hp
      exact hp
    exact List.perm_singleton.mp hp2
  subst hco
  subst hpo
  refine ⟨rfl, rfl, rfl, rfl, rfl, ?_⟩
  show blendedConfidence P initialState subject body = 0
  simp [blendedConfidence, MemberModel.classify, initialState, fallbackResult,
    initialWeights, Weights.sum]

/-- Witness for C7. -/
theorem C7_fresh_fallback_witness :
    (EmailClassifier.classify trivialPredictors initialState
        ["unknown"] ["medium"] "s" "b").dt_result = fallbackResult ∧
    (EmailClassifier.classify trivialPredictors initialState
        ["unknown"] ["medium"] "s" "b").nb_result = fallbackResult ∧
    (EmailClassifier.classify trivialPredictors initialState
        ["unknown"] ["medium"] "s" "b").lr_result = fallbackResult ∧
    (EmailClassifier.classify trivialPredictors initialState
        ["unknown"] ["medium"] "s" "b").category = "unknown" ∧
    (EmailClassifier.classify trivialPredictors initialState
        ["unknown"] ["medium"] "s" "b").priority = "medium" ∧
    (EmailClassifier.classify trivialPredictors initialState
        ["unknown"] ["medium"] "s" "b").confidence = 0 :=
  C7_fresh_fallback trivialPredictors "s" "b" ["unknown"] ["medium"]
    (by decide) (by decide)

end YtHelpdesk
